import Mathlib

/-
  Verification of the water-quality dashboard pipeline (streamlit_app.py).

  The app's tabular data is shallowly embedded as Lean lists of typed rows.
  Library parsing calls (pd.to_datetime, pd.to_numeric) are modelled at the
  cell level by their outcome: a cell is either a parsed value or a raw
  malformed payload, so date parsing can fail exactly where the library's
  would.  Strings are modelled as lists of characters; dates, once parsed,
  as day ordinals (Nat); numeric measures as rationals (NaN = none).
-/

namespace WQ

/-- Decides whether the first character list is a prefix of the second. -/
def startsWithCL : List Char → List Char → Bool
  | [], _ => true
  | _ :: _, [] => false
  | a :: as, b :: bs => a == b && startsWithCL as bs

/-- Substring occurrence test, modelling Python's `in` operator on strings
(`"result" in uploaded_file.name.lower()`). -/
def substrOccurs (pat : List Char) : List Char → Bool
  | [] => startsWithCL pat []
  | c :: rest => startsWithCL pat (c :: rest) || substrOccurs pat rest

/-- The filename hint substring "result" (streamlit_app.py line 30). -/
def resultHint : List Char := "result".toList

/-- The filename hint substring "station" (streamlit_app.py line 32). -/
def stationHint : List Char := "station".toList

/-- Column name "CharacteristicName" (auto-detect, line 37). -/
def charNameCol : List Char := "CharacteristicName".toList

/-- Column name "MonitoringLocationIdentifier" (auto-detect, line 39). -/
def monLocIdCol : List Char := "MonitoringLocationIdentifier".toList

/-- Column name "LatitudeMeasure". -/
def latCol : List Char := "LatitudeMeasure".toList

/-- Column name "LongitudeMeasure". -/
def lonCol : List Char := "LongitudeMeasure".toList

/-- Column name "OrganizationIdentifier". -/
def orgCol : List Char := "OrganizationIdentifier".toList

/-- An uploaded file as the classification loop sees it: its lowercased
name and the column list of `pd.read_csv(uploaded_file, nrows=1)`. -/
structure RawFile where
  nameLower : List Char
  cols : List (List Char)
deriving DecidableEq

/-- The role a file ends up in: `results_file`, `stations_file`, or neither. -/
inductive Role where
  | results
  | stations
  | unmatched
deriving DecidableEq

/-- The column-presence auto-detect branch (lines 36-40): a file with a
CharacteristicName column is results; otherwise, with a
MonitoringLocationIdentifier column, it is stations. -/
def colRole (f : RawFile) : Role :=
  if f.cols.contains charNameCol then Role.results
  else if f.cols.contains monLocIdCol then Role.stations
  else Role.unmatched

/-- Classification of a single uploaded file (loop body, lines 29-40):
the filename substrings "result" / "station" are tested first; only when
neither occurs does the column auto-detect run. -/
def classifyFile (f : RawFile) : Role :=
  if substrOccurs resultHint f.nameLower then Role.results
  else if substrOccurs stationHint f.nameLower then Role.stations
  else colRole f

/-- One iteration of the upload loop: a results-classified file overwrites
`results_file`, a stations-classified file overwrites `stations_file`. -/
def roleStep (acc : Option RawFile × Option RawFile) (f : RawFile) :
    Option RawFile × Option RawFile :=
  match classifyFile f with
  | Role.results => (some f, acc.2)
  | Role.stations => (acc.1, some f)
  | Role.unmatched => acc

/-- The whole classification loop over `uploaded_files`, starting from
`results_file = None; stations_file = None`. -/
def assignRoles (files : List RawFile) : Option RawFile × Option RawFile :=
  files.foldl roleStep (none, none)

/-- One raw cell of the ActivityStartDate column: either a date
pd.to_datetime can parse (kept as a day ordinal) or a malformed payload. -/
inductive DateCell where
  | valid (d : Nat)
  | malformed (raw : List Char)
deriving DecidableEq

/-- One raw cell of the ResultMeasureValue column: either numeric text
(kept as a rational) or non-numeric text. -/
inductive NumCell where
  | num (q : ℚ)
  | nonnumeric (raw : List Char)
deriving DecidableEq

/-- One row of the raw results table as read by pd.read_csv. -/
structure ResultRow where
  station_id : List Char
  characteristic : List Char
  dateCell : DateCell
  valueCell : NumCell
deriving DecidableEq

/-- One results row after the date column has been parsed. -/
structure NormRow where
  station_id : List Char
  characteristic : List Char
  date : Nat
  valueCell : NumCell
deriving DecidableEq

/-- Line 116: `pd.to_datetime(df_results['ActivityStartDate'])` with the
default `errors='raise'`: the first malformed cell aborts the whole
conversion with an exception (modelled as `Except.error`), carrying the
offending raw text; only if every cell parses is a table produced. -/
def toDatetime : List ResultRow → Except (List Char) (List NormRow)
  | [] => Except.ok []
  | r :: rest =>
    match r.dateCell with
    | DateCell.malformed raw => Except.error raw
    | DateCell.valid d =>
      match toDatetime rest with
      | Except.error e => Except.error e
      | Except.ok out =>
        Except.ok (⟨r.station_id, r.characteristic, d, r.valueCell⟩ :: out)

/-- Lines 132-135: `pd.to_numeric(..., errors='coerce')` on one cell:
non-numeric text becomes NaN, modelled as `none`. -/
def to_numeric (c : NumCell) : Option ℚ :=
  match c with
  | NumCell.num q => some q
  | NumCell.nonnumeric _ => none

/-- One results row after the value column has been coerced to numeric;
`value = none` models NaN. -/
structure ValRow where
  station_id : List Char
  characteristic : List Char
  date : Nat
  value : Option ℚ
deriving DecidableEq

/-- Line 128: `df_results[df_results['CharacteristicName'] == selected]`. -/
def char_data (df : List NormRow) (sel : List Char) : List NormRow :=
  df.filter (fun r => decide (r.characteristic = sel))

/-- Coercion of one row's value column. -/
def coerceRow (r : NormRow) : ValRow :=
  ⟨r.station_id, r.characteristic, r.date, to_numeric r.valueCell⟩

/-- Lines 131-135: the to_numeric coercion applied to the whole column. -/
def coerceValues (df : List NormRow) : List ValRow := df.map coerceRow

/-- Pandas semantics of `series >= lo` on a float column: NaN compares
false. -/
def nanGE (v : Option ℚ) (lo : ℚ) : Bool :=
  match v with
  | some x => decide (lo ≤ x)
  | none => false

/-- Pandas semantics of `series <= hi` on a float column: NaN compares
false. -/
def nanLE (v : Option ℚ) (hi : ℚ) : Bool :=
  match v with
  | some x => decide (x ≤ hi)
  | none => false

/-- Lines 161-164: the value-range mask
`(v >= value_range[0]) & (v <= value_range[1])`. -/
def valueMask (df : List ValRow) (lo hi : ℚ) : List ValRow :=
  df.filter (fun r => nanGE r.value lo && nanLE r.value hi)

/-- Lines 166-170: the date-range mask
`(date >= date_range[0]) & (date <= date_range[1])`. -/
def dateMask (df : List ValRow) (d1 d2 : Nat) : List ValRow :=
  df.filter (fun r => decide (d1 ≤ r.date) && decide (r.date ≤ d2))

/-- The filter block of tab 1 run on the normalized table: characteristic
selection, numeric coercion, value mask, date mask (lines 128-170). -/
def applyFilters (df : List NormRow) (sel : List Char) (lo hi : ℚ)
    (d1 d2 : Nat) : List ValRow :=
  dateMask (valueMask (coerceValues (char_data df sel)) lo hi) d1 d2

/-- Characteristic selection as it acts on an already-coerced table (the
shape a second run of the filter block sees). -/
def charMaskV (df : List ValRow) (sel : List Char) : List ValRow :=
  df.filter (fun r => decide (r.characteristic = sel))

/-- `pd.to_numeric(..., errors='coerce')` on an already-numeric cell:
numbers stay, NaN stays NaN. -/
def to_numeric_again (v : Option ℚ) : Option ℚ :=
  match v with
  | some q => some q
  | none => none

/-- The numeric coercion applied to an already-coerced column. -/
def coerceValuesV (df : List ValRow) : List ValRow :=
  df.map (fun r => ⟨r.station_id, r.characteristic, r.date, to_numeric_again r.value⟩)

/-- The filter block re-run on its own (already coerced) output with the
same criteria. -/
def applyFiltersV (df : List ValRow) (sel : List Char) (lo hi : ℚ)
    (d1 d2 : Nat) : List ValRow :=
  dateMask (valueMask (coerceValuesV (charMaskV df sel)) lo hi) d1 d2

/-- Line 180: `filtered.set_index('ActivityStartDate')[['ResultMeasureValue']]`
handed to st.line_chart — the (date, value) projection of the filtered rows
in their existing order; no sort is applied. -/
def chart_data (filtered : List ValRow) : List (Nat × Option ℚ) :=
  filtered.map (fun r => (r.date, r.value))

/-- Ascending-by-date check on a chart sequence. -/
def sortedByDate : List (Nat × Option ℚ) → Bool
  | [] => true
  | [_] => true
  | a :: b :: rest => decide (a.1 ≤ b.1) && sortedByDate (b :: rest)

/-- One row of the stations table; `lat`/`lon` are `none` when the CSV cell
is empty (NaN). -/
structure StationRow where
  station_id : List Char
  org : List Char
  lat : Option ℚ
  lon : Option ℚ
deriving DecidableEq

/-- The stations dataframe: its column list plus its typed rows. -/
structure StationsDF where
  cols : List (List Char)
  rows : List StationRow
deriving DecidableEq

/-- Lines 241-246: the simple-map branch.  The guard checks only that both
coordinate COLUMNS exist; when they do, the whole dataframe (every row,
renamed lat/lon) is handed to st.map. -/
def simpleMapInput (df : StationsDF) : Option (List StationRow) :=
  if df.cols.contains latCol && df.cols.contains lonCol then some df.rows
  else none

/-- The organization colour table of create_station_map (lines 63-67). -/
def orgColors : List (List Char) :=
  ["USGS-KY".toList, "11NPSWRD_WQX".toList, "31ORWUNT_WQX".toList]

/-- A failure inside the try-block of create_station_map, e.g. the KeyError
of `df['OrganizationIdentifier']` (line 70) or of the coordinate column
lookups (lines 72-74, 85-90) when a column is absent. -/
inductive MapErr where
  | keyError (col : List Char)
deriving DecidableEq

/-- The matplotlib figure: the stations actually scattered (rows whose
organization appears in the colour table, lines 69-81). -/
structure MapFig where
  pts : List StationRow
deriving DecidableEq

/-- The try-block body of create_station_map (lines 44-101): column lookups
that can raise, then the scatter of colour-matched rows.  Further runtime
failures (e.g. set_extent on an empty frame) would also surface as
`Except.error`; one modelled failure per column lookup suffices to exercise
the handler. -/
def mapBody (df : StationsDF) : Except MapErr MapFig :=
  if df.cols.contains orgCol then
    if df.cols.contains lonCol then
      if df.cols.contains latCol then
        Except.ok ⟨df.rows.filter (fun r => orgColors.contains r.org)⟩
      else Except.error (MapErr.keyError latCol)
    else Except.error (MapErr.keyError lonCol)
  else Except.error (MapErr.keyError orgCol)

/-- Lines 43-104: create_station_map with its try/except.  The second
component is the `st.error` message shown when the body raised; the first
is the returned figure (`None` on failure). -/
def create_station_map (df : StationsDF) : Option MapFig × Option MapErr :=
  match mapBody df with
  | Except.ok f => (some f, none)
  | Except.error e => (none, some e)

/-- Lines 248-252: the caller — `fig = create_station_map(df_stations);
if fig:` render it, otherwise skip. -/
def renderDetailedMap (df : StationsDF) : Option (List StationRow) :=
  match (create_station_map df).1 with
  | some f => some f.pts
  | none => none

/-- One output row of the station-measurement join: the measurement plus
its station's fields, or `none` when unmatched. -/
structure JoinedRow where
  meas : ValRow
  station : Option StationRow
deriving DecidableEq

/-- Modelled from the spec: the repository's single source file never joins
the two tables (they are displayed in separate tabs), so the Join Engine of
spec §4.4 is modelled from the spec's words — a left outer join on
`station_id`, each measurement row extended with the first matching station
row (first occurrence wins) or with nulls when no station matches. -/
def joinTables (m : List ValRow) (s : List StationRow) : List JoinedRow :=
  m.map (fun r => ⟨r, s.find? (fun t => t.station_id == r.station_id)⟩)

/-- A results row whose date cell pd.to_datetime cannot parse. -/
def badDateRow : ResultRow :=
  ⟨"S1".toList, "Lead".toList, DateCell.malformed "not-a-date".toList, NumCell.num 5⟩

/-- A results row whose date cell parses. -/
def goodDateRow : ResultRow :=
  ⟨"S1".toList, "Lead".toList, DateCell.valid 738521, NumCell.num 5⟩

/-- A normalized two-row results table whose rows are not in date order. -/
def unorderedTable : List NormRow :=
  [⟨"S1".toList, "Lead".toList, 10, NumCell.num 5⟩,
   ⟨"S2".toList, "Lead".toList, 3, NumCell.num 7⟩]

/-- An upload whose filename contains "result" but whose columns are those
of a stations table (MonitoringLocationIdentifier, no CharacteristicName). -/
def resultNamedStationFile : RawFile := ⟨"lab_results.csv".toList, [monLocIdCol]⟩

/-- First of two uploads whose filenames both contain "result". -/
def resultsUploadA : RawFile := ⟨"results_a.csv".toList, []⟩

/-- Second of two uploads whose filenames both contain "result". -/
def resultsUploadB : RawFile := ⟨"results_b.csv".toList, []⟩

/-- A station row with a missing latitude cell. -/
def noLatRow : StationRow := ⟨"S2".toList, "USGS-KY".toList, none, some 1⟩

/-- A stations dataframe that has both coordinate columns but whose single
row lacks a latitude value. -/
def noLatDF : StationsDF := ⟨[latCol, lonCol], [noLatRow]⟩

/-- An upload with a neutral filename carrying both role-signature columns. -/
def bothColsFile : RawFile := ⟨"data.csv".toList, [charNameCol, monLocIdCol]⟩

/-- C1: the join is a left outer join on station_id in which every
measurement row appears exactly once in the output — `|join(m, s)| = |m|`
for all m and s, and projecting each output row back to its measurement
part returns the input table unchanged, regardless of whether a matching
station row exists. -/
theorem C1_join_left_cardinality (m : List ValRow) (s : List StationRow) :
    (joinTables m s).length = m.length ∧ (joinTables m s).map JoinedRow.meas = m := by
  constructor
  · simp [joinTables]
  · simp only [joinTables, List.map_map]
    exact List.map_id m

/-- C2 counterexample: on a one-row table whose date cell is malformed,
`pd.to_datetime` with its default `errors='raise'` raises instead of
retaining the row with a sentinel — there is no output table at all, so the
row count is not preserved. -/
theorem C2_counterexample :
    toDatetime [badDateRow] = Except.error ("not-a-date".toList) ∧
    ¬ ∃ out, toDatetime [badDateRow] = Except.ok out ∧ out.length = 1 := by
  constructor
  · rfl
  · rintro ⟨out, h, -⟩
    rw [show toDatetime [badDateRow] = Except.error ("not-a-date".toList) from rfl] at h
    exact Except.noConfusion h

/-- C2 amended: date normalization raises on the first malformed cell
(aborting the whole table for that request); only when every date cell
parses is a table produced, and then no row is dropped — the row count is
preserved. -/
theorem C2_all_dates_valid_preserves_rows (df : List ResultRow)
    (h : ∀ r ∈ df, ∃ d, r.dateCell = DateCell.valid d) :
    ∃ out, toDatetime df = Except.ok out ∧ out.length = df.length := by
  induction df with
  | nil => exact ⟨[], rfl, rfl⟩
  | cons r rest ih =>
    obtain ⟨d, hd⟩ := h r (List.mem_cons_self r rest)
    obtain ⟨out, hout, hlen⟩ := ih (fun x hx => h x (List.mem_cons_of_mem r hx))
    refine ⟨⟨r.station_id, r.characteristic, d, r.valueCell⟩ :: out, ?_, ?_⟩
    · simp [toDatetime, hd, hout]
    · simp [hlen]

/-- C2 witness: a concrete all-valid table keeps its row count. -/
theorem C2_all_dates_valid_witness :
    ∃ out, toDatetime [goodDateRow] = Except.ok out ∧ out.length = [goodDateRow].length :=
  C2_all_dates_valid_preserves_rows [goodDateRow] (by
    intro r hr
    rw [List.mem_singleton] at hr
    subst hr
    exact ⟨738521, rfl⟩)

/-- C6: the value mask keeps a row iff the row has a concrete parsed
numeric value v with min ≤ v ≤ max, both bounds inclusive; every row whose
value is the NaN sentinel (unparsable/absent) is absent from the
value-filtered output. -/
theorem C6_value_mask_keeps_iff (df : List ValRow) (lo hi : ℚ) (r : ValRow) :
    (r ∈ valueMask df lo hi ↔ r ∈ df ∧ ∃ v, r.value = some v ∧ lo ≤ v ∧ v ≤ hi) ∧
    (r.value = none → r ∉ valueMask df lo hi) := by
  have hmain : r ∈ valueMask df lo hi ↔ r ∈ df ∧ ∃ v, r.value = some v ∧ lo ≤ v ∧ v ≤ hi := by
    unfold valueMask
    rw [List.mem_filter]
    refine and_congr Iff.rfl ?_
    cases hv : r.value with
    | none => simp [nanGE, hv]
    | some v => simp [nanGE, nanLE, hv]
  refine ⟨hmain, ?_⟩
  intro hnone hmem
  obtain ⟨-, v, hv, -⟩ := hmain.mp hmem
  rw [hnone] at hv
  exact Option.noConfusion hv

/-- C3 counterexample: a concrete normalized table whose rows arrive in
non-ascending date order passes through the filter block unsorted — the
sequence handed to st.line_chart is not sorted ascending by date. -/
theorem C3_counterexample :
    sortedByDate (chart_data (applyFilters unorderedTable ("Lead".toList) 0 100 0 100))
      = false := by decide

/-- C3 amended: the pipeline performs no sort at all — the chart sequence
is the (date, value) projection of the surviving rows in their original
relative input order (a subsequence of the projected input table); any
date ordering is left to the renderer. -/
theorem C3_chart_preserves_input_order (df : List NormRow) (sel : List Char)
    (lo hi : ℚ) (d1 d2 : Nat) :
    List.Sublist (chart_data (applyFilters df sel lo hi d1 d2))
      (chart_data (coerceValues df)) := by
  unfold applyFilters chart_data
  apply List.Sublist.map
  unfold dateMask valueMask
  exact (List.filter_sublist _).trans
    ((List.filter_sublist _).trans ((List.filter_sublist _).map coerceRow))

/-- C4 counterexample: a file named "lab_results.csv" whose columns
identify it as a stations table (MonitoringLocationIdentifier present,
CharacteristicName absent) is nevertheless assigned the results role — the
filename hint overrides the column-based classification. -/
theorem C4_counterexample :
    colRole resultNamedStationFile = Role.stations ∧
    classifyFile resultNamedStationFile ≠ Role.stations := by decide

/-- C4 amended: the filename substring hint is checked first and is
authoritative; column presence is consulted only when the lowercased
filename contains neither "result" nor "station". -/
theorem C4_filename_hint_first (f : RawFile) :
    (substrOccurs resultHint f.nameLower = true → classifyFile f = Role.results) ∧
    (substrOccurs resultHint f.nameLower = false →
      substrOccurs stationHint f.nameLower = true → classifyFile f = Role.stations) ∧
    (substrOccurs resultHint f.nameLower = false →
      substrOccurs stationHint f.nameLower = false → classifyFile f = colRole f) := by
  refine ⟨?_, ?_, ?_⟩
  · intro h
    simp [classifyFile, h]
  · intro h1 h2
    simp [classifyFile, h1, h2]
  · intro h1 h2
    simp [classifyFile, h1, h2]

/-- C4 witness: the "lab_results.csv" upload with stations columns is
classified by its filename hint. -/
theorem C4_filename_hint_first_witness :
    classifyFile resultNamedStationFile = Role.results :=
  (C4_filename_hint_first resultNamedStationFile).1 (by decide)

/-- C5 counterexample: two uploads both matching the results role (both
filenames contain "result") produce no ambiguity report — the loop silently
resolves the tie, assigning the second upload as the results file. -/
theorem C5_counterexample :
    classifyFile resultsUploadA = Role.results ∧
    classifyFile resultsUploadB = Role.results ∧
    assignRoles [resultsUploadA, resultsUploadB] = (some resultsUploadB, none) := by decide

/-- Folding the upload loop over files none of which classify as results
leaves the results slot unchanged. -/
theorem foldl_roleStep_fst_of_no_results (l : List RawFile) :
    ∀ acc : Option RawFile × Option RawFile,
      (∀ g ∈ l, classifyFile g ≠ Role.results) → (l.foldl roleStep acc).1 = acc.1 := by
  induction l with
  | nil =>
    intro acc _
    rfl
  | cons g rest ih =>
    intro acc h
    rw [List.foldl_cons]
    rw [ih (roleStep acc g) (fun x hx => h x (List.mem_cons_of_mem g hx))]
    have hg := h g (List.mem_cons_self g rest)
    cases hcg : classifyFile g with
    | results => exact absurd hcg hg
    | stations => simp [roleStep, hcg]
    | unmatched => simp [roleStep, hcg]

/-- C5 amended: there is no ambiguity detection — when several uploads
match the same role, the classification loop silently keeps the last
matching file in upload order (each match overwrites the slot). -/
theorem C5_last_result_wins (files1 files2 : List RawFile) (f : RawFile)
    (hf : classifyFile f = Role.results)
    (h2 : ∀ g ∈ files2, classifyFile g ≠ Role.results) :
    (assignRoles (files1 ++ f :: files2)).1 = some f := by
  unfold assignRoles
  rw [List.foldl_append, List.foldl_cons]
  rw [foldl_roleStep_fst_of_no_results files2 _ h2]
  simp [roleStep, hf]

/-- C5 witness: with two results-named uploads the later one wins. -/
theorem C5_last_result_wins_witness :
    (assignRoles [resultsUploadA, resultsUploadB]).1 = some resultsUploadB :=
  C5_last_result_wins [resultsUploadA] [] resultsUploadB (by decide)
    (fun g hg => absurd hg (List.not_mem_nil g))

/-- C7 counterexample: a stations dataframe with both coordinate columns
but a row whose latitude cell is empty hands that row to map rendering
anyway — the sequence given to st.map is not restricted to rows with both
coordinates present. -/
theorem C7_counterexample :
    simpleMapInput noLatDF = some [noLatRow] ∧ noLatRow.lat = none := by decide

/-- C7 amended: the map branch checks only that the two coordinate COLUMNS
exist; when they do, every station row — including rows with missing
coordinate values — is handed to the renderer unchanged, and dropping
coordinate-less points is left to the renderer. -/
theorem C7_column_gate_only (df : StationsDF)
    (hlat : df.cols.contains latCol = true)
    (hlon : df.cols.contains lonCol = true) :
    simpleMapInput df = some df.rows := by
  unfold simpleMapInput
  rw [hlat, hlon]
  rfl

/-- C7 witness: the concrete dataframe with a latitude-less row passes all
its rows to the map. -/
theorem C7_column_gate_only_witness :
    simpleMapInput noLatDF = some noLatDF.rows :=
  C7_column_gate_only noLatDF (by decide) (by decide)

/-- Re-coercion of an already-numeric cell is the identity. -/
theorem to_numeric_again_eq (v : Option ℚ) : to_numeric_again v = v := by
  cases v <;> rfl

/-- Re-coercing an already-coerced column leaves the table unchanged. -/
theorem coerceValuesV_eq (df : List ValRow) : coerceValuesV df = df := by
  unfold coerceValuesV
  have hf : (fun r : ValRow =>
      (⟨r.station_id, r.characteristic, r.date, to_numeric_again r.value⟩ : ValRow))
      = fun r => r := by
    funext r
    rw [to_numeric_again_eq]
  rw [hf]
  exact List.map_id df

/-- C8: the filter block is idempotent — running the same characteristic
selection, numeric coercion, value mask and date mask over its own output
with the same criteria returns that output unchanged. -/
theorem C8_filter_idempotent (df : List NormRow) (sel : List Char)
    (lo hi : ℚ) (d1 d2 : Nat) :
    applyFiltersV (applyFilters df sel lo hi d1 d2) sel lo hi d1 d2
      = applyFilters df sel lo hi d1 d2 := by
  set out := applyFilters df sel lo hi d1 d2 with hout
  have hchar : ∀ r ∈ out, decide (r.characteristic = sel) = true := by
    intro r hr
    rw [hout] at hr
    unfold applyFilters dateMask at hr
    have hr2 := (List.mem_filter.mp hr).1
    unfold valueMask at hr2
    have hr3 := (List.mem_filter.mp hr2).1
    unfold coerceValues at hr3
    obtain ⟨s, hs, hcoe⟩ := List.mem_map.mp hr3
    unfold char_data at hs
    have hsel := (List.mem_filter.mp hs).2
    rw [← hcoe]
    exact hsel
  have hval : ∀ r ∈ out, (nanGE r.value lo && nanLE r.value hi) = true := by
    intro r hr
    rw [hout] at hr
    unfold applyFilters dateMask at hr
    have hr2 := (List.mem_filter.mp hr).1
    unfold valueMask at hr2
    exact (List.mem_filter.mp hr2).2
  have hdate : ∀ r ∈ out, (decide (d1 ≤ r.date) && decide (r.date ≤ d2)) = true := by
    intro r hr
    rw [hout] at hr
    unfold applyFilters dateMask at hr
    exact (List.mem_filter.mp hr).2
  unfold applyFiltersV
  rw [show charMaskV out sel = out from List.filter_eq_self.mpr hchar]
  rw [coerceValuesV_eq]
  rw [show valueMask out lo hi = out from List.filter_eq_self.mpr hval]
  exact List.filter_eq_self.mpr hdate

/-- C9: with a neutral filename (neither hint substring occurs), the
measurements role is checked first — a CharacteristicName column forces the
results role even when MonitoringLocationIdentifier is also present; the
stations role is assigned only when CharacteristicName is absent and
MonitoringLocationIdentifier is present. -/
theorem C9_autodetect_results_precedence (f : RawFile)
    (hres : substrOccurs resultHint f.nameLower = false)
    (hsta : substrOccurs stationHint f.nameLower = false) :
    (f.cols.contains charNameCol = true → classifyFile f = Role.results) ∧
    (f.cols.contains charNameCol = false → f.cols.contains monLocIdCol = true →
      classifyFile f = Role.stations) := by
  constructor
  · intro hc
    unfold classifyFile colRole
    rw [hres, hsta, hc]
    rfl
  · intro hc hm
    unfold classifyFile colRole
    rw [hres, hsta, hc, hm]
    rfl

/-- C9 witness: a neutrally named upload carrying BOTH signature columns is
classified as measurements. -/
theorem C9_autodetect_results_precedence_witness :
    classifyFile bothColsFile = Role.results :=
  (C9_autodetect_results_precedence bothColsFile (by decide) (by decide)).1 (by decide)

/-- C10: create_station_map never propagates an exception — for every
input dataframe it either returns the figure built by its body, or, when
the body raises, reports the error as an on-screen message and returns
None, in which case the caller skips rendering. -/
theorem C10_create_station_map_total (df : StationsDF) :
    (∃ fig, mapBody df = Except.ok fig ∧ create_station_map df = (some fig, none) ∧
      renderDetailedMap df = some fig.pts) ∨
    (∃ e, mapBody df = Except.error e ∧ create_station_map df = (none, some e) ∧
      renderDetailedMap df = none) := by
  cases h : mapBody df with
  | ok fig =>
    left
    exact ⟨fig, rfl, by simp [create_station_map, h],
      by simp [renderDetailedMap, create_station_map, h]⟩
  | error e =>
    right
    exact ⟨e, rfl, by simp [create_station_map, h],
      by simp [renderDetailedMap, create_station_map, h]⟩

end WQ
